import Mathlib

/-!
Shallow embedding of the `telegram_ai_bot` message dispatcher and its
per-user rate limiter (`src/telegram_ai_bot/bot.py`, `on_message`) and of
the canned-response backend (`src/telegram_ai_bot/ai_engine/dummy_api.py`).

Time (`time.time()` floats in the source) is modelled as `ℤ`; the per-user
mutable dict is a structure `UserRL`; the process-wide `bot_data` mapping
is a function `ℕ → Option UserRL`; a backend that may raise is a function
into `Except Unit String`.
-/

namespace TelegramBot

/-- The per-user rate-limit record created by `rl.setdefault(user_id, ...)`
in `on_message`: fields `last_ts`, `hits`, `warned_short`, `warned_window`. -/
structure UserRL where
  last_ts : ℤ
  hits : List ℤ
  warned_short : Bool
  warned_window : Bool
deriving DecidableEq, Repr

/-- The default record inserted on a user's first message:
`last_ts = 0.0, hits = [], warned_short = False, warned_window = False`. -/
def initRL : UserRL :=
  { last_ts := 0, hits := [], warned_short := false, warned_window := false }

/-- Outcome of the rate-limit portion of `on_message` for one call. -/
inductive Decision where
  | accept
  | rejectSilently
  | rejectWithWarning (msg : String)
deriving DecidableEq, Repr

/-- Warning text sent on the first short-cooldown rejection of an episode. -/
def shortCooldownMsg : String :=
  "تکایە چەند چرکەیەک چاوەڕێ بکە پێش ئەوەی دووبارە نامە بنێری."

/-- Warning text sent on the first rolling-window rejection of an episode. -/
def windowMsg : String :=
  "لە ماوەی کەمدا نامەی زۆرت ناردووە. تکایە ھەندێک پشووی بکە پاشان بەردەوام بە."

/-- `window_seconds = 600` in `on_message`. -/
def windowSeconds : ℤ := 600

/-- `window_limit = 20` in `on_message`. -/
def windowLimit : Nat := 20

/-- The list comprehension
`[t for t in user_rl["hits"] if now - t < window_seconds]`. -/
def prune (hits : List ℤ) (now : ℤ) : List ℤ :=
  hits.filter (fun t => now - t < windowSeconds)

/-- The rate-limit portion of `on_message` (bot.py lines 55-80): the
short-cooldown check, then pruning and the rolling-window check, then the
acceptance update, returning the decision together with the mutated
per-user record. -/
def check_and_record (st : UserRL) (now : ℤ) : Decision × UserRL :=
  if now - st.last_ts < 3 then
    if !st.warned_short then
      (Decision.rejectWithWarning shortCooldownMsg, { st with warned_short := true })
    else
      (Decision.rejectSilently, st)
  else
    if windowLimit ≤ (prune st.hits now).length then
      if !st.warned_window then
        (Decision.rejectWithWarning windowMsg,
          { st with hits := prune st.hits now, warned_window := true })
      else
        (Decision.rejectSilently, { st with hits := prune st.hits now })
    else
      (Decision.accept,
        { last_ts := now, hits := prune st.hits now ++ [now],
          warned_short := false, warned_window := false })

/-- Fold a sequence of calls through `check_and_record`, keeping the state. -/
def runCalls (st : UserRL) (times : List ℤ) : UserRL :=
  times.foldl (fun s t => (check_and_record s t).2) st

/-- The decision produced at each call of a sequence. -/
def decisions (st : UserRL) (times : List ℤ) : List Decision :=
  match times with
  | [] => []
  | t :: rest => (check_and_record st t).1 :: decisions (check_and_record st t).2 rest

/-- The subsequence of call times whose decision was `accept`. -/
def acceptedTimes (st : UserRL) (times : List ℤ) : List ℤ :=
  match times with
  | [] => []
  | t :: rest =>
    if (check_and_record st t).1 = Decision.accept then
      t :: acceptedTimes (check_and_record st t).2 rest
    else
      acceptedTimes (check_and_record st t).2 rest

/-! ### Message dispatcher (`on_message`, bot.py lines 29-100) -/

/-- The outbound effect of one `on_message` call: either no reply or one
`reply_text` with the given string. -/
inductive OutboundAction where
  | none
  | sendText (s : String)
deriving DecidableEq, Repr

/-- Notice sent when `update.message.text is None`. -/
def textOnlyNotice : String := "ببورە، تەنها نامەی نووسراو دەتوانم وەربگرم."

/-- Reply sent when `bot_data` holds no `ai_engine`. -/
def notReadyMsg : String := "ببورە، سیستەم ئامادە نییە."

/-- Reply sent when `ai_engine.generate_reply` raises. -/
def backendErrorMsg : String :=
  "ببورە، کێشەیەک ڕوویدا لە وەڵامدانەوە. تکایە دواتر هەوڵ بدە."

/-- Fallback substituted when the backend returns a falsy (empty) reply. -/
def emptyReplyMsg : String := "ببورە، ئێستا نەتوانم وەڵام بدەم."

/-- A reply backend as the dispatcher sees it: `Except.error` models a
raised exception, `Except.ok` models a returned string. -/
abbrev Backend : Type := String → Except Unit String

/-- One `on_message` call on a message whose `text` field is `txt`
(`Option.none` models `update.message.text is None`). State threading
makes the in-place dict mutations of bot.py explicit: the returned map is
`bot_data["rate_limit"]` after the call. -/
def on_message (engine : Option Backend) (rl : ℕ → Option UserRL)
    (uid : ℕ) (txt : Option String) (now : ℤ) :
    OutboundAction × (ℕ → Option UserRL) :=
  match txt with
  | Option.none => (OutboundAction.sendText textOnlyNotice, rl)
  | Option.some text =>
    let st := (rl uid).getD initRL
    let res := check_and_record st now
    let rl2 : ℕ → Option UserRL := fun u => if u = uid then Option.some res.2 else rl u
    match res.1 with
    | Decision.rejectWithWarning msg => (OutboundAction.sendText msg, rl2)
    | Decision.rejectSilently => (OutboundAction.none, rl2)
    | Decision.accept =>
      match engine with
      | Option.none => (OutboundAction.sendText notReadyMsg, rl2)
      | Option.some gen =>
        match gen text with
        | Except.error _ => (OutboundAction.sendText backendErrorMsg, rl2)
        | Except.ok reply =>
          if reply = "" then (OutboundAction.sendText emptyReplyMsg, rl2)
          else (OutboundAction.sendText reply, rl2)

/-! ### Canned-response backend (`ai_engine/dummy_api.py`) -/

/-- Membership of a codepoint in `_ARABIC_RE`:
`[؀-ۿݐ-ݿࢠ-ࣿ]`. -/
def isArabicChar (c : Char) : Bool :=
  (0x600 ≤ c.toNat && c.toNat ≤ 0x6FF) ||
  (0x750 ≤ c.toNat && c.toNat ≤ 0x77F) ||
  (0x8A0 ≤ c.toNat && c.toNat ≤ 0x8FF)

/-- Membership of a codepoint in `_LATIN_RE`: `[A-Za-z]`. -/
def isLatinChar (c : Char) : Bool :=
  (0x41 ≤ c.toNat && c.toNat ≤ 0x5A) || (0x61 ≤ c.toNat && c.toNat ≤ 0x7A)

/-- Python `str.strip()` (the whitespace characters that occur here are
ASCII), char-list based so that it evaluates by kernel reduction. -/
def pyStrip (s : String) : String :=
  String.mk (((s.data.dropWhile Char.isWhitespace).reverse.dropWhile
    Char.isWhitespace).reverse)

/-- Python `str.lower()` (the cased characters involved are ASCII). -/
def pyLower (s : String) : String := String.mk (s.data.map Char.toLower)

/-- Python `len` on a string: its number of codepoints. -/
def pyLen (s : String) : Nat := s.data.length

/-- `_detect_language`: first match wins — Arabic-script, then Latin,
else Kurdish default. -/
def detect_language (text : String) : String :=
  if text.data.any isArabicChar then "ar"
  else if text.data.any isLatinChar then "en"
  else "ku"

/-- Python substring containment `needle in hay`, over the char lists. -/
def hasSubstr (needle : List Char) : List Char → Bool
  | [] => needle.isEmpty
  | c :: tl => needle.isPrefixOf (c :: tl) || hasSubstr needle tl

/-- Python `needle in hay` on strings. -/
def strIn (needle hay : String) : Bool := hasSubstr needle.data hay.data

/-- `_classify_intent`: keyword/punctuation/length rules classifying the
input into one of `greeting`, `question`, `unclear`, `general`.
Python's `str.strip`/`str.lower` are modelled by `String.trim` and
`String.toLower` (the keywords involved are ASCII). -/
def classify_intent (text : String) : String :=
  let t := pyLower (pyStrip text)
  if (strIn "hi" t || strIn "hello" t || strIn "hey" t) || strIn "سڵاو" text then
    "greeting"
  else if strIn "?" text || strIn "؟" text then "question"
  else if pyLen t ≤ 3 then "unclear"
  else "general"

/-- `random.choice`, with the random draw made explicit as an index
`pick` reduced modulo the pool size. -/
def choice (pick : Nat) (pool : List String) : String :=
  pool.getD (pick % pool.length) ""

/-- `_reply_en`. -/
def reply_en (pick : Nat) (kind : String) : String :=
  if kind = "greeting" then
    choice pick
      ["Hi! How can I help you today?", "Hello. What would you like to know?"]
  else if kind = "question" then
    "I can help—could you share a bit more detail so I answer accurately?"
  else if kind = "unclear" then "Could you clarify what you mean?"
  else
    choice pick
      ["Got it. What’s the main goal you want to achieve?",
       "I’m here to help—tell me what you need."]

/-- `_reply_ar`. -/
def reply_ar (pick : Nat) (kind : String) : String :=
  if kind = "greeting" then
    choice pick ["مرحباً. كيف يمكنني مساعدتك؟", "أهلاً! ماذا تريد أن تعرف؟"]
  else if kind = "question" then
    "أقدر أن أساعدك—هل يمكنك توضيح سؤالك أكثر حتى أجيب بدقة؟"
  else if kind = "unclear" then "هل يمكنك التوضيح أكثر؟"
  else
    choice pick ["تمام. ما الذي تحتاجه بالضبط؟", "أنا جاهز للمساعدة—قل لي ما الموضوع."]

/-- `_reply_ku`. -/
def reply_ku (pick : Nat) (kind : String) : String :=
  if kind = "greeting" then
    choice pick ["سڵاو. چۆن دەتوانم یارمەتیت بدەم؟", "سڵاو! چی دەتەوێت بزانیت؟"]
  else if kind = "question" then
    "دەکرێت زیاتر ڕوون بکەیت؟ بەم شێوەیە وەڵامت بە دروستی دەدەم."
  else if kind = "unclear" then "تکایە زیاتر ڕوون بکەیت."
  else
    choice pick
      ["باشە. تکایە بە کورتی بڵێ چی پێویستتە.",
       "من ئامادەم یارمەتیت بدەم—بڵێ کێشەکەت چییە."]

/-- Reply returned for empty (falsy after strip) input. -/
def emptyInputReply : String := "تکایە شتێک بنووسە تا یارمەتیت بدەم."

/-- `DummyAI.generate_reply`, with the two `random.choice` draws of a call
collapsed into the one explicit index `pick` (each branch performs at most
one draw). -/
def generate_reply (pick : Nat) (user_text : String) : String :=
  let text := pyStrip user_text
  if text = "" then emptyInputReply
  else
    let lang := detect_language text
    let kind := classify_intent text
    if lang = "en" then reply_en pick kind
    else if lang = "ar" then reply_ar pick kind
    else reply_ku pick kind

/-- The fixed pool of canned replies for a `(language, intent)` pair, as
written in `_reply_en`/`_reply_ar`/`_reply_ku` (singleton pools for the
deterministic branches). -/
def replyPool (lang kind : String) : List String :=
  if lang = "en" then
    if kind = "greeting" then
      ["Hi! How can I help you today?", "Hello. What would you like to know?"]
    else if kind = "question" then
      ["I can help—could you share a bit more detail so I answer accurately?"]
    else if kind = "unclear" then ["Could you clarify what you mean?"]
    else
      ["Got it. What’s the main goal you want to achieve?",
       "I’m here to help—tell me what you need."]
  else if lang = "ar" then
    if kind = "greeting" then
      ["مرحباً. كيف يمكنني مساعدتك؟", "أهلاً! ماذا تريد أن تعرف؟"]
    else if kind = "question" then
      ["أقدر أن أساعدك—هل يمكنك توضيح سؤالك أكثر حتى أجيب بدقة؟"]
    else if kind = "unclear" then ["هل يمكنك التوضيح أكثر؟"]
    else
      ["تمام. ما الذي تحتاجه بالضبط؟", "أنا جاهز للمساعدة—قل لي ما الموضوع."]
  else
    if kind = "greeting" then
      ["سڵاو. چۆن دەتوانم یارمەتیت بدەم؟", "سڵاو! چی دەتەوێت بزانیت؟"]
    else if kind = "question" then
      ["دەکرێت زیاتر ڕوون بکەیت؟ بەم شێوەیە وەڵامت بە دروستی دەدەم."]
    else if kind = "unclear" then ["تکایە زیاتر ڕوون بکەیت."]
    else
      ["باشە. تکایە بە کورتی بڵێ چی پێویستتە.",
       "من ئامادەم یارمەتیت بدەم—بڵێ کێشەکەت چییە."]

/-- Whether a decision is an acceptance. -/
def isAccept : Decision → Bool
  | Decision.accept => true
  | _ => false

/-- Whether a decision carries the short-cooldown warning. -/
def isShortWarning : Decision → Bool
  | Decision.rejectWithWarning m => m == shortCooldownMsg
  | _ => false

/-- Whether a decision carries the rolling-window warning. -/
def isWindowWarning : Decision → Bool
  | Decision.rejectWithWarning m => m == windowMsg
  | _ => false

/-- Spec scenario for the window limit: 20 messages spaced 3 seconds apart
starting at t = 10, then a 21st at t = 611, when the earliest hit is more
than 600 seconds old. -/
def windowScenario : List ℤ :=
  (List.range 20).map (fun i => 10 + 3 * (i : ℤ)) ++ [611]

/-! ### Basic lemmas about `check_and_record` -/

/-- Sanity checks of the embedded classifier and reply generator on
concrete inputs (note: substring matching makes "this" contain "hi"). -/
theorem classifier_sanity :
    classify_intent "hello?" = "greeting" ∧
    classify_intent "what goes on?" = "question" ∧
    classify_intent "is this new?" = "greeting" ∧
    classify_intent "ok" = "unclear" ∧
    detect_language "hello" = "en" ∧
    generate_reply 0 "   " = emptyInputReply ∧
    generate_reply 1 "greetings, what now" =
      "I’m here to help—tell me what you need." := by
  decide


/-- Exhaustive case analysis of one `check_and_record` call: short-cooldown
warn, short-cooldown silent, window warn, window silent, accept. -/
theorem check_cases (st : UserRL) (now : ℤ) :
    (now - st.last_ts < 3 ∧ st.warned_short = false ∧
      check_and_record st now =
        (Decision.rejectWithWarning shortCooldownMsg, { st with warned_short := true })) ∨
    (now - st.last_ts < 3 ∧ st.warned_short = true ∧
      check_and_record st now = (Decision.rejectSilently, st)) ∨
    (3 ≤ now - st.last_ts ∧ windowLimit ≤ (prune st.hits now).length ∧
      st.warned_window = false ∧
      check_and_record st now =
        (Decision.rejectWithWarning windowMsg,
          { st with hits := prune st.hits now, warned_window := true })) ∨
    (3 ≤ now - st.last_ts ∧ windowLimit ≤ (prune st.hits now).length ∧
      st.warned_window = true ∧
      check_and_record st now =
        (Decision.rejectSilently, { st with hits := prune st.hits now })) ∨
    (3 ≤ now - st.last_ts ∧ (prune st.hits now).length < windowLimit ∧
      check_and_record st now =
        (Decision.accept,
          { last_ts := now, hits := prune st.hits now ++ [now],
            warned_short := false, warned_window := false })) := by
  unfold check_and_record
  split_ifs with h1 h2 h3 h4
  · exact Or.inl ⟨h1, by simpa using h2, rfl⟩
  · exact Or.inr (Or.inl ⟨h1, by simpa using h2, rfl⟩)
  · exact Or.inr (Or.inr (Or.inl ⟨by omega, h3, by simpa using h4, rfl⟩))
  · exact Or.inr (Or.inr (Or.inr (Or.inl ⟨by omega, h3, by simpa using h4, rfl⟩)))
  · exact Or.inr (Or.inr (Or.inr (Or.inr ⟨by omega, by omega, rfl⟩)))

/-- The two warning messages are distinct strings. -/
theorem warning_msgs_ne : shortCooldownMsg ≠ windowMsg := by decide

/-- When the decision is `accept`, the recorded state and the guards that
held at the decision. -/
theorem accept_spec {st : UserRL} {now : ℤ}
    (h : (check_and_record st now).1 = Decision.accept) :
    (check_and_record st now).2 =
      { last_ts := now, hits := prune st.hits now ++ [now],
        warned_short := false, warned_window := false } ∧
    st.last_ts + 3 ≤ now ∧ (prune st.hits now).length < windowLimit := by
  rcases check_cases st now with ⟨_, _, heq⟩ | ⟨_, _, heq⟩ | ⟨_, _, _, heq⟩ |
    ⟨_, _, _, heq⟩ | ⟨h1, h2, heq⟩ <;> rw [heq] at h ⊢ <;> simp_all
  omega

/-- When the decision is not `accept`, `last_ts` is untouched. -/
theorem reject_last_ts {st : UserRL} {now : ℤ}
    (h : (check_and_record st now).1 ≠ Decision.accept) :
    ((check_and_record st now).2).last_ts = st.last_ts := by
  rcases check_cases st now with ⟨_, _, heq⟩ | ⟨_, _, heq⟩ | ⟨_, _, _, heq⟩ |
    ⟨_, _, _, heq⟩ | ⟨_, _, heq⟩ <;> rw [heq] at h ⊢ <;> simp_all

/-- `runCalls` preserves any property preserved by single steps. -/
theorem runCalls_preserve (P : UserRL → Prop)
    (hstep : ∀ st t, P st → P ((check_and_record st t).2)) :
    ∀ (times : List ℤ) (st : UserRL), P st → P (runCalls st times) := by
  intro times
  induction times with
  | nil => intro st h; exact h
  | cons t rest ih =>
    intro st h
    exact ih _ (hstep st t h)

/-- Membership in a pruned list: the entry was stored and is inside the
window. -/
theorem mem_prune {hits : List ℤ} {now x : ℤ} (hx : x ∈ prune hits now) :
    x ∈ hits ∧ now - x < windowSeconds := by
  unfold prune at hx
  rw [List.mem_filter] at hx
  exact ⟨hx.1, by simpa using hx.2⟩

/-- A pruned list is no longer than the stored list. -/
theorem prune_len_le (hits : List ℤ) (now : ℤ) :
    (prune hits now).length ≤ hits.length :=
  List.length_filter_le _ _

/-- Invariant: the stored hit list never holds more than `windowLimit`
entries. -/
theorem hits_len_inv (times : List ℤ) :
    (runCalls initRL times).hits.length ≤ windowLimit := by
  refine runCalls_preserve (fun st => st.hits.length ≤ windowLimit) ?_ times initRL (by decide)
  intro st t h
  rcases check_cases st t with ⟨_, _, heq⟩ | ⟨_, _, heq⟩ | ⟨_, _, _, heq⟩ |
    ⟨_, _, _, heq⟩ | ⟨_, hlen, heq⟩ <;> rw [heq]
  · exact h
  · exact h
  · exact le_trans (prune_len_le _ _) h
  · exact le_trans (prune_len_le _ _) h
  · simp only [List.length_append, List.length_cons, List.length_nil]
    omega

/-- Invariant: every stored hit is at most the stored `last_ts`. -/
theorem hits_le_last_inv (times : List ℤ) :
    ∀ t ∈ (runCalls initRL times).hits, t ≤ (runCalls initRL times).last_ts := by
  refine runCalls_preserve (fun st => ∀ t ∈ st.hits, t ≤ st.last_ts) ?_ times initRL
    (by simp [initRL])
  intro st t h
  rcases check_cases st t with ⟨_, _, heq⟩ | ⟨_, _, heq⟩ | ⟨_, _, _, heq⟩ |
    ⟨_, _, _, heq⟩ | ⟨h1, _, heq⟩ <;> rw [heq]
  · exact h
  · exact h
  · exact fun x hx => h x (mem_prune hx).1
  · exact fun x hx => h x (mem_prune hx).1
  · dsimp only
    intro x hx
    simp only [List.mem_append, List.mem_singleton] at hx
    rcases hx with hx | hx
    · have := h x (mem_prune hx).1; omega
    · omega

/-! ### Spacing of accepted messages (C1) -/

/-- Accepted times from any start state are spaced by at least 3 seconds,
and all of them lie at least 3 seconds after the start state's
`last_ts`. -/
theorem acceptedTimes_chain (times : List ℤ) :
    ∀ st : UserRL,
      List.Chain' (fun a b => 3 ≤ b - a) (acceptedTimes st times) ∧
      ∀ x ∈ acceptedTimes st times, st.last_ts + 3 ≤ x := by
  induction times with
  | nil => intro st; simp [acceptedTimes]
  | cons t rest ih =>
    intro st
    by_cases hd : (check_and_record st t).1 = Decision.accept
    · obtain ⟨hst, h3, _⟩ := accept_spec hd
      obtain ⟨ihc, ihb⟩ := ih ((check_and_record st t).2)
      have hlast : ((check_and_record st t).2).last_ts = t := by rw [hst]
      have hb : ∀ x ∈ acceptedTimes ((check_and_record st t).2) rest, t + 3 ≤ x := by
        intro x hx
        have := ihb x hx
        omega
      constructor
      · simp only [acceptedTimes, if_pos hd]
        rw [List.chain'_cons']
        refine ⟨?_, ihc⟩
        intro y hy
        have := hb y (List.mem_of_mem_head? hy)
        omega
      · simp only [acceptedTimes, if_pos hd]
        intro x hx
        rcases List.mem_cons.mp hx with rfl | hx
        · omega
        · have := hb x hx
          omega
    · obtain ⟨ihc, ihb⟩ := ih ((check_and_record st t).2)
      have hlast : ((check_and_record st t).2).last_ts = st.last_ts := reject_last_ts hd
      constructor
      · simpa only [acceptedTimes, if_neg hd] using ihc
      · simp only [acceptedTimes, if_neg hd]
        intro x hx
        have := ihb x hx
        omega

/-- C1: over any sequence of rate-limit checks with monotonically
non-decreasing `now`, consecutive accepted messages are at least 3 seconds
apart: if `t'` is the acceptance preceding acceptance `t`, then
`t - t' ≥ 3`. -/
theorem c1_accepted_spacing (times : List ℤ)
    (_hmono : List.Chain' (fun a b => a ≤ b) times) :
    List.Chain' (fun a b => 3 ≤ b - a) (acceptedTimes initRL times) :=
  (acceptedTimes_chain times initRL).1

theorem c1_accepted_spacing_witness :
    List.Chain' (fun a b => 3 ≤ b - a) (acceptedTimes initRL [4, 5, 9]) :=
  c1_accepted_spacing [4, 5, 9] (by simp [List.chain'_cons])

/-! ### Rolling-window cap (C2) -/

/-- C2: in any reachable state, at decision time the pruned hit list holds
at most `windowLimit` (20) timestamps inside the trailing 600-second
window; a message is accepted only when the pruned count is strictly below
20; and in the spec scenario — 20 accepted messages then a 21st at t = 611
with the earliest hit more than 600 seconds old — the 21st is accepted
because pruning freed capacity. -/
theorem c2_window_cap (times : List ℤ) (now : ℤ) :
    (prune (runCalls initRL times).hits now).length ≤ windowLimit ∧
    ((check_and_record (runCalls initRL times) now).1 = Decision.accept →
      (prune (runCalls initRL times).hits now).length < windowLimit) ∧
    decisions initRL windowScenario = List.replicate 21 Decision.accept := by
  refine ⟨le_trans (prune_len_le _ _) (hits_len_inv times), ?_, by decide⟩
  intro h
  exact (accept_spec h).2.2

theorem c2_window_cap_witness :
    (prune (runCalls initRL []).hits 10).length < windowLimit :=
  (c2_window_cap [] 10).2.1 (by decide)

/-! ### One warning per violation episode (C3) -/

theorem isShortWarning_short :
    isShortWarning (Decision.rejectWithWarning shortCooldownMsg) = true := by decide

theorem isShortWarning_window :
    isShortWarning (Decision.rejectWithWarning windowMsg) = false := by decide

theorem isShortWarning_silent : isShortWarning Decision.rejectSilently = false := rfl

theorem isWindowWarning_short :
    isWindowWarning (Decision.rejectWithWarning shortCooldownMsg) = false := by decide

theorem isWindowWarning_window :
    isWindowWarning (Decision.rejectWithWarning windowMsg) = true := by decide

theorem isWindowWarning_silent : isWindowWarning Decision.rejectSilently = false := rfl

/-- In an accept-free run, each warning kind is emitted at most once, and
not at all when the corresponding flag is already set. -/
theorem no_accept_warn_bound (times : List ℤ) :
    ∀ st : UserRL,
      (decisions st times).all (fun d => !(isAccept d)) = true →
      (decisions st times).countP isShortWarning ≤ (if st.warned_short then 0 else 1) ∧
      (decisions st times).countP isWindowWarning ≤ (if st.warned_window then 0 else 1) := by
  induction times with
  | nil => intro st _; simp [decisions]
  | cons t rest ih =>
    intro st hall
    have hcons : decisions st (t :: rest) =
        (check_and_record st t).1 :: decisions ((check_and_record st t).2) rest := rfl
    rw [hcons] at hall ⊢
    simp only [List.all_cons, Bool.and_eq_true] at hall
    obtain ⟨hd0, hrest⟩ := hall
    rcases check_cases st t with ⟨h1, hw, heq⟩ | ⟨h1, hw, heq⟩ | ⟨h1, hlen, hw, heq⟩ |
      ⟨h1, hlen, hw, heq⟩ | ⟨h1, hlen, heq⟩
    · rw [heq] at hrest ⊢
      obtain ⟨ihs, ihw⟩ := ih _ hrest
      simp only [List.countP_cons, isShortWarning_short, isWindowWarning_short,
        hw] at ihs ihw ⊢
      split_ifs at ihs ihw ⊢ <;> simp_all
    · rw [heq] at hrest ⊢
      obtain ⟨ihs, ihw⟩ := ih _ hrest
      simp only [List.countP_cons, isShortWarning_silent, isWindowWarning_silent,
        hw] at ihs ihw ⊢
      split_ifs at ihs ihw ⊢ <;> simp_all
    · rw [heq] at hrest ⊢
      obtain ⟨ihs, ihw⟩ := ih _ hrest
      simp only [List.countP_cons, isShortWarning_window, isWindowWarning_window,
        hw] at ihs ihw ⊢
      split_ifs at ihs ihw ⊢ <;> simp_all
    · rw [heq] at hrest ⊢
      obtain ⟨ihs, ihw⟩ := ih _ hrest
      simp only [List.countP_cons, isShortWarning_silent, isWindowWarning_silent,
        hw] at ihs ihw ⊢
      split_ifs at ihs ihw ⊢ <;> simp_all
    · rw [heq] at hd0
      simp [isAccept] at hd0

/-- C3: warnings are emitted at most once per violation episode and per
limit type — an accept-free run started with clear flags emits at most one
short-cooldown warning and at most one window warning; any acceptance
resets both flags to false; and a violation hit with a clear flag does
produce the corresponding fresh warning. -/
theorem c3_one_warning_per_episode :
    (∀ (st : UserRL) (times : List ℤ),
        (decisions st times).all (fun d => !(isAccept d)) = true →
        st.warned_short = false → st.warned_window = false →
        (decisions st times).countP isShortWarning ≤ 1 ∧
        (decisions st times).countP isWindowWarning ≤ 1) ∧
    (∀ (st : UserRL) (now : ℤ), (check_and_record st now).1 = Decision.accept →
        ((check_and_record st now).2).warned_short = false ∧
        ((check_and_record st now).2).warned_window = false) ∧
    (∀ (st : UserRL) (now : ℤ), st.warned_short = false → now - st.last_ts < 3 →
        (check_and_record st now).1 = Decision.rejectWithWarning shortCooldownMsg) ∧
    (∀ (st : UserRL) (now : ℤ), st.warned_window = false → 3 ≤ now - st.last_ts →
        windowLimit ≤ (prune st.hits now).length →
        (check_and_record st now).1 = Decision.rejectWithWarning windowMsg) := by
  refine ⟨?_, ?_, ?_, ?_⟩
  · intro st times hall hs hw
    have := no_accept_warn_bound times st hall
    rw [hs, hw] at this
    simpa using this
  · intro st now h
    rw [(accept_spec h).1]
    exact ⟨rfl, rfl⟩
  · intro st now hs h1
    unfold check_and_record
    rw [if_pos h1, if_pos (by simp [hs])]
  · intro st now hw h1 hlen
    unfold check_and_record
    rw [if_neg (by omega), if_pos hlen, if_pos (by simp [hw])]

theorem c3_one_warning_per_episode_witness :
    ((decisions initRL [0, 1, 2]).countP isShortWarning ≤ 1 ∧
      (decisions initRL [0, 1, 2]).countP isWindowWarning ≤ 1) ∧
    (((check_and_record initRL 10).2).warned_short = false ∧
      ((check_and_record initRL 10).2).warned_window = false) ∧
    (check_and_record initRL 0).1 = Decision.rejectWithWarning shortCooldownMsg ∧
    (check_and_record
        { last_ts := 0, hits := List.replicate 20 50,
          warned_short := false, warned_window := false } 60).1 =
      Decision.rejectWithWarning windowMsg :=
  ⟨c3_one_warning_per_episode.1 initRL [0, 1, 2] (by decide) (by decide) (by decide),
   c3_one_warning_per_episode.2.1 initRL 10 (by decide),
   c3_one_warning_per_episode.2.2.1 initRL 0 (by decide) (by decide),
   c3_one_warning_per_episode.2.2.2 _ 60 (by decide) (by decide) (by decide)⟩

/-! ### First-message behaviour and the t = 0,1,2 scenario (C4) -/

/-- C4 counterexample: because the fresh record initialises `last_ts` to
`0.0` rather than leaving it absent, a brand-new user's message at t = 0
satisfies `now - last_ts = 0 < 3` and is rejected with the short-cooldown
warning — not accepted as the claim's scenario states. -/
theorem c4_counterexample :
    (check_and_record initRL 0).1 ≠ Decision.accept ∧
    (check_and_record initRL 0).1 = Decision.rejectWithWarning shortCooldownMsg := by
  decide

/-- C4 amended: a brand-new user's first message is accepted exactly when
`now ≥ 3` — for every `now < 3` it is rejected with the short-cooldown
warning, because of the `0.0` sentinel in `last_ts` — and the spec
scenario holds shifted away from t = 0: messages at t = 10, 11, 12 give
accept, reject-with-warning, silent reject, and a further message at
t = 14 is accepted with both warned flags false. -/
theorem c4_first_message_scenario :
    decisions initRL [10, 11, 12, 14] =
      [Decision.accept, Decision.rejectWithWarning shortCooldownMsg,
       Decision.rejectSilently, Decision.accept] ∧
    (runCalls initRL [10, 11, 12, 14]).warned_short = false ∧
    (runCalls initRL [10, 11, 12, 14]).warned_window = false ∧
    (∀ now : ℤ, (check_and_record initRL now).1 = Decision.accept ↔ 3 ≤ now) ∧
    (∀ now : ℤ, now < 3 →
      (check_and_record initRL now).1 = Decision.rejectWithWarning shortCooldownMsg) := by
  have haccept : ∀ now : ℤ, 3 ≤ now → (check_and_record initRL now).1 = Decision.accept := by
    intro now h
    have h1 : ¬(now - initRL.last_ts < 3) := by
      simp only [initRL]
      omega
    have h2 : ¬(windowLimit ≤ (prune initRL.hits now).length) := by
      simp [initRL, prune, windowLimit]
    unfold check_and_record
    rw [if_neg h1, if_neg h2]
  have hreject : ∀ now : ℤ, now < 3 →
      (check_and_record initRL now).1 = Decision.rejectWithWarning shortCooldownMsg := by
    intro now h
    have h1 : now - initRL.last_ts < 3 := by
      simp only [initRL]
      omega
    unfold check_and_record
    rw [if_pos h1, if_pos (by decide)]
  refine ⟨by decide, by decide, by decide, ?_, hreject⟩
  intro now
  constructor
  · intro hacc
    have h3 := (accept_spec hacc).2.1
    simp [initRL] at h3
    omega
  · exact haccept now

theorem c4_first_message_scenario_witness :
    (check_and_record initRL 3).1 = Decision.accept ∧
    (check_and_record initRL 1).1 = Decision.rejectWithWarning shortCooldownMsg :=
  ⟨(c4_first_message_scenario.2.2.2.1 3).mpr (by decide),
   c4_first_message_scenario.2.2.2.2 1 (by decide)⟩

/-! ### Pruning and the short-cooldown early return (C5) -/

/-- C5 counterexample: a short-cooldown rejection returns before pruning,
so after the call at t = 605 (rejected by the cooldown, as its last
decision shows) the stored hits still contain 4, which is 601 > 600
seconds old. -/
theorem c5_counterexample :
    (4 : ℤ) ∈ (runCalls initRL [4, 603, 605]).hits ∧
    ¬((605 : ℤ) - 4 < windowSeconds) ∧
    (decisions initRL [4, 603, 605]).getLast? =
      Option.some (Decision.rejectWithWarning shortCooldownMsg) := by
  decide

/-- C5 amended: pruning happens before the rolling-window check, not
before the short-cooldown check. After any call that passes the cooldown
check (window rejection or acceptance) every stored hit is within 600
seconds of `now`; a call rejected by the short cooldown leaves the hits
untouched. -/
theorem c5_prune_before_window_check :
    (∀ (st : UserRL) (now : ℤ), ¬(now - st.last_ts < 3) →
        ∀ x ∈ ((check_and_record st now).2).hits, now - x < windowSeconds) ∧
    (∀ (st : UserRL) (now : ℤ), now - st.last_ts < 3 →
        ((check_and_record st now).2).hits = st.hits) := by
  constructor
  · intro st now h1 x hx
    rcases check_cases st now with ⟨h1', _, _⟩ | ⟨h1', _, _⟩ | ⟨_, _, _, heq⟩ |
      ⟨_, _, _, heq⟩ | ⟨_, _, heq⟩
    · exact absurd h1' h1
    · exact absurd h1' h1
    · rw [heq] at hx
      exact (mem_prune hx).2
    · rw [heq] at hx
      exact (mem_prune hx).2
    · rw [heq] at hx
      simp only [List.mem_append, List.mem_singleton] at hx
      rcases hx with hx | rfl
      · exact (mem_prune hx).2
      · simp only [windowSeconds]
        omega
  · intro st now h1
    rcases check_cases st now with ⟨_, _, heq⟩ | ⟨_, _, heq⟩ | ⟨h1', _, _, _⟩ |
      ⟨h1', _, _, _⟩ | ⟨h1', _, _⟩
    · rw [heq]
    · rw [heq]
    · omega
    · omega
    · omega

theorem c5_prune_before_window_check_witness :
    (∀ x ∈ ((check_and_record initRL 10).2).hits, (10 : ℤ) - x < windowSeconds) ∧
    ((check_and_record (UserRL.mk 8 [8] false false) 10).2).hits = [8] :=
  ⟨c5_prune_before_window_check.1 initRL 10 (by decide),
   c5_prune_before_window_check.2 (UserRL.mk 8 [8] false false) 10 (by decide)⟩

/-! ### Dispatcher text gate (C6) -/

/-- For a message with a present `text`, whatever the decision and backend
outcome, the rate-limit map after `on_message` holds the user's record as
mutated by `check_and_record`, and other entries are untouched. -/
theorem on_message_some_snd (e : Option Backend) (rl : ℕ → Option UserRL)
    (uid : ℕ) (s : String) (now : ℤ) :
    (on_message e rl uid (Option.some s) now).2 =
      fun u => if u = uid then
        Option.some ((check_and_record ((rl uid).getD initRL) now).2)
      else rl u := by
  unfold on_message
  rcases hd : (check_and_record ((rl uid).getD initRL) now).1 with _ | _ | m
  · rcases e with _ | gen
    · simp [hd]
    · rcases hg : gen s with u | r
      · simp [hd, hg]
      · by_cases hr : r = "" <;> simp [hd, hg, hr]
  · simp [hd]
  · simp [hd]

/-- C6 counterexample: a whitespace-only text is not gated — with an
identity backend it is accepted, its rate-limit budget is consumed (the
fresh user record becomes `last_ts = 10, hits = [10]`), and the backend's
reply to the whitespace string is what gets sent, so the input did reach
`generate_reply`. -/
theorem c6_counterexample :
    (on_message (Option.some (fun s => Except.ok s)) (fun _ => Option.none) 1
        (Option.some " ") 10).1 = OutboundAction.sendText " " ∧
    (on_message (Option.some (fun s => Except.ok s)) (fun _ => Option.none) 1
        (Option.some " ") 10).1 ≠ OutboundAction.sendText textOnlyNotice ∧
    (on_message (Option.some (fun s => Except.ok s)) (fun _ => Option.none) 1
        (Option.some " ") 10).2 1 =
      Option.some (UserRL.mk 10 [10] false false) := by
  refine ⟨rfl, by decide, ?_⟩
  rw [on_message_some_snd]
  decide

/-- C6 amended: only a message whose `text` is absent (`None`) is answered
with the fixed "text only" notice without touching any rate-limit state or
backend; a present text — including empty or whitespace-only strings — is
passed to `check_and_record`, mutating the user's rate-limit record on
every such call. -/
theorem c6_text_gate :
    (∀ (e : Option Backend) (rl : ℕ → Option UserRL) (uid : ℕ) (now : ℤ),
        on_message e rl uid Option.none now =
          (OutboundAction.sendText textOnlyNotice, rl)) ∧
    (∀ (e : Option Backend) (rl : ℕ → Option UserRL) (uid : ℕ) (s : String) (now : ℤ),
        (on_message e rl uid (Option.some s) now).2 uid =
          Option.some ((check_and_record ((rl uid).getD initRL) now).2)) := by
  constructor
  · intro e rl uid now
    rfl
  · intro e rl uid s now
    rw [on_message_some_snd]
    simp

/-! ### Acceptance recording (C7) -/

/-- C7: in any reachable state, when a message is accepted the record gets
`last_ts = now`, `now` appended as the last and largest element of
`recent_hits`, and both warned flags false; and no non-accept step ever
turns a set warned flag back to false. -/
theorem c7_acceptance_recording :
    (∀ (times : List ℤ) (now : ℤ),
        (check_and_record (runCalls initRL times) now).1 = Decision.accept →
        ((check_and_record (runCalls initRL times) now).2).last_ts = now ∧
        ((check_and_record (runCalls initRL times) now).2).hits.getLast? =
          Option.some now ∧
        (∀ x ∈ ((check_and_record (runCalls initRL times) now).2).hits, x ≤ now) ∧
        ((check_and_record (runCalls initRL times) now).2).warned_short = false ∧
        ((check_and_record (runCalls initRL times) now).2).warned_window = false) ∧
    (∀ (st : UserRL) (now : ℤ), (check_and_record st now).1 ≠ Decision.accept →
        (st.warned_short = true → ((check_and_record st now).2).warned_short = true) ∧
        (st.warned_window = true → ((check_and_record st now).2).warned_window = true)) := by
  constructor
  · intro times now h
    obtain ⟨heq, h3, _⟩ := accept_spec h
    rw [heq]
    refine ⟨rfl, List.getLast?_concat _, ?_, rfl, rfl⟩
    intro x hx
    simp only [List.mem_append, List.mem_singleton] at hx
    rcases hx with hx | rfl
    · have hin := (mem_prune hx).1
      have := hits_le_last_inv times x hin
      omega
    · omega
  · intro st now h
    rcases check_cases st now with ⟨_, _, heq⟩ | ⟨_, _, heq⟩ | ⟨_, _, _, heq⟩ |
      ⟨_, _, _, heq⟩ | ⟨_, _, heq⟩ <;> rw [heq]
    · exact ⟨fun _ => rfl, fun hw => hw⟩
    · exact ⟨fun hw => hw, fun hw => hw⟩
    · exact ⟨fun hw => hw, fun _ => rfl⟩
    · exact ⟨fun hw => hw, fun hw => hw⟩
    · rw [heq] at h
      simp at h

theorem c7_acceptance_recording_witness :
    (((check_and_record (runCalls initRL [4]) 10).2).last_ts = 10 ∧
      ((check_and_record (runCalls initRL [4]) 10).2).hits.getLast? =
        Option.some 10 ∧
      (∀ x ∈ ((check_and_record (runCalls initRL [4]) 10).2).hits, x ≤ 10) ∧
      ((check_and_record (runCalls initRL [4]) 10).2).warned_short = false ∧
      ((check_and_record (runCalls initRL [4]) 10).2).warned_window = false) ∧
    (initRL.warned_short = true →
      ((check_and_record initRL 0).2).warned_short = true) :=
  ⟨c7_acceptance_recording.1 [4] 10 (by decide),
   (c7_acceptance_recording.2 initRL 0 (by decide)).1⟩

/-! ### Dispatcher outcome after acceptance (C8) -/

/-- C8: once the rate limiter accepts, the outbound reply is determined by
the backend call — a raised exception yields the fixed apology with the
rate-limit state exactly as recorded at acceptance, an empty reply yields
the fixed fallback message, and a non-empty reply is sent verbatim. -/
theorem c8_backend_outcomes (gen : Backend) (rl : ℕ → Option UserRL) (uid : ℕ)
    (s : String) (now : ℤ)
    (hacc : (check_and_record ((rl uid).getD initRL) now).1 = Decision.accept) :
    (∀ e : Unit, gen s = Except.error e →
        (on_message (Option.some gen) rl uid (Option.some s) now).1 =
          OutboundAction.sendText backendErrorMsg ∧
        (on_message (Option.some gen) rl uid (Option.some s) now).2 uid =
          Option.some ((check_and_record ((rl uid).getD initRL) now).2)) ∧
    (gen s = Except.ok "" →
        (on_message (Option.some gen) rl uid (Option.some s) now).1 =
          OutboundAction.sendText emptyReplyMsg) ∧
    (∀ r : String, gen s = Except.ok r → r ≠ "" →
        (on_message (Option.some gen) rl uid (Option.some s) now).1 =
          OutboundAction.sendText r) := by
  refine ⟨?_, ?_, ?_⟩
  · intro e hg
    constructor
    · unfold on_message
      simp [hacc, hg]
    · rw [on_message_some_snd]
      simp
  · intro hg
    unfold on_message
    simp [hacc, hg]
  · intro r hg hr
    unfold on_message
    simp [hacc, hg, hr]

theorem c8_backend_outcomes_witness :
    ((on_message (Option.some (fun _ => Except.error ())) (fun _ => Option.none) 1
        (Option.some "hi") 10).1 = OutboundAction.sendText backendErrorMsg ∧
      (on_message (Option.some (fun _ => Except.error ())) (fun _ => Option.none) 1
        (Option.some "hi") 10).2 1 =
        Option.some ((check_and_record ((Option.none : Option UserRL).getD initRL) 10).2)) ∧
    (on_message (Option.some (fun _ => Except.ok "")) (fun _ => Option.none) 1
        (Option.some "hi") 10).1 = OutboundAction.sendText emptyReplyMsg ∧
    (on_message (Option.some (fun _ => Except.ok "ok!")) (fun _ => Option.none) 1
        (Option.some "hi") 10).1 = OutboundAction.sendText "ok!" :=
  ⟨(c8_backend_outcomes (fun _ => Except.error ()) (fun _ => Option.none) 1 "hi" 10
      (by decide)).1 () rfl,
   (c8_backend_outcomes (fun _ => Except.ok "") (fun _ => Option.none) 1 "hi" 10
      (by decide)).2.1 rfl,
   (c8_backend_outcomes (fun _ => Except.ok "ok!") (fun _ => Option.none) 1 "hi" 10
      (by decide)).2.2 "ok!" rfl (by decide)⟩

/-! ### Totality of the canned-response backend (C9) -/

/-- `random.choice` on a non-empty pool returns an element of the pool. -/
theorem choice_mem (pick : Nat) (pool : List String) (h : pool ≠ []) :
    choice pick pool ∈ pool := by
  unfold choice
  have hl : pick % pool.length < pool.length :=
    Nat.mod_lt _ (List.length_pos.mpr h)
  rw [List.getD_eq_getElem?_getD, List.getElem?_eq_getElem hl]
  simp

/-- `_classify_intent` always lands in the four intents. -/
theorem classify_intent_cases (t : String) :
    classify_intent t = "greeting" ∨ classify_intent t = "question" ∨
    classify_intent t = "unclear" ∨ classify_intent t = "general" := by
  unfold classify_intent
  dsimp only
  split_ifs <;> tauto

/-- `_detect_language` always lands in the three languages. -/
theorem detect_language_cases (t : String) :
    detect_language t = "ar" ∨ detect_language t = "en" ∨
    detect_language t = "ku" := by
  unfold detect_language
  split_ifs <;> simp

/-- The empty string belongs to no reply pool. -/
theorem replyPool_no_empty (lang kind : String) : "" ∉ replyPool lang kind := by
  unfold replyPool
  split_ifs <;> decide

/-- `_reply_en` draws from the English pool of the intent. -/
theorem reply_en_mem (pick : Nat) (kind : String) :
    reply_en pick kind ∈ replyPool "en" kind := by
  unfold reply_en replyPool
  rw [if_pos rfl]
  split_ifs
  · exact choice_mem _ _ (by decide)
  · simp
  · simp
  · exact choice_mem _ _ (by decide)

/-- `_reply_ar` draws from the Arabic pool of the intent. -/
theorem reply_ar_mem (pick : Nat) (kind : String) :
    reply_ar pick kind ∈ replyPool "ar" kind := by
  unfold reply_ar replyPool
  rw [if_neg (by decide), if_pos rfl]
  split_ifs
  · exact choice_mem _ _ (by decide)
  · simp
  · simp
  · exact choice_mem _ _ (by decide)

/-- `_reply_ku` draws from the Kurdish pool of the intent. -/
theorem reply_ku_mem (pick : Nat) (kind : String) :
    reply_ku pick kind ∈ replyPool "ku" kind := by
  unfold reply_ku replyPool
  rw [if_neg (by decide), if_neg (by decide)]
  split_ifs
  · exact choice_mem _ _ (by decide)
  · simp
  · simp
  · exact choice_mem _ _ (by decide)

/-- C9: `DummyAI.generate_reply` is total and never fails — for every
input string and every random draw it returns a non-empty reply: the fixed
prompt when the stripped input is empty, otherwise a member of the fixed
pool for the detected language and classified intent, the intent always
being one of greeting, question, unclear, general. -/
theorem c9_dummy_backend_total (pick : Nat) (s : String) :
    generate_reply pick s ≠ "" ∧
    (pyStrip s = "" → generate_reply pick s = emptyInputReply) ∧
    (pyStrip s ≠ "" →
        generate_reply pick s ∈
          replyPool (detect_language (pyStrip s)) (classify_intent (pyStrip s))) ∧
    (classify_intent (pyStrip s) = "greeting" ∨
      classify_intent (pyStrip s) = "question" ∨
      classify_intent (pyStrip s) = "unclear" ∨
      classify_intent (pyStrip s) = "general") := by
  have hmem : pyStrip s ≠ "" →
      generate_reply pick s ∈
        replyPool (detect_language (pyStrip s)) (classify_intent (pyStrip s)) := by
    intro hne
    unfold generate_reply
    rw [if_neg hne]
    rcases detect_language_cases (pyStrip s) with h | h | h <;> rw [h]
    · rw [if_neg (by decide), if_pos rfl]
      exact reply_ar_mem pick _
    · rw [if_pos rfl]
      exact reply_en_mem pick _
    · rw [if_neg (by decide), if_neg (by decide)]
      exact reply_ku_mem pick _
  have hempty : pyStrip s = "" → generate_reply pick s = emptyInputReply := by
    intro hne
    unfold generate_reply
    rw [if_pos hne]
  refine ⟨?_, hempty, hmem, classify_intent_cases _⟩
  by_cases hne : pyStrip s = ""
  · rw [hempty hne]
    decide
  · intro h0
    exact replyPool_no_empty _ _ (h0 ▸ hmem hne)

theorem c9_dummy_backend_total_witness :
    generate_reply 0 "hello" ≠ "" ∧
    generate_reply 0 "hello" ∈
      replyPool (detect_language (pyStrip "hello"))
        (classify_intent (pyStrip "hello")) ∧
    generate_reply 0 "   " = emptyInputReply :=
  ⟨(c9_dummy_backend_total 0 "hello").1,
   (c9_dummy_backend_total 0 "hello").2.2.1 (by decide),
   (c9_dummy_backend_total 0 "   ").2.1 (by decide)⟩

/-! ### Frame conditions of rejections (C10) -/

/-- C10: a rejected call leaves `last_ts` and the recorded hits' content
untouched — the state is either unchanged, or changed only by setting the
corresponding warned flag, or (past the cooldown check) by pruning expired
hits — and every `on_message` call leaves all other users' records
exactly as they were. -/
theorem c10_rejection_frame :
    (∀ (st : UserRL) (now : ℤ), (check_and_record st now).1 ≠ Decision.accept →
        (check_and_record st now).2 = st ∨
        (check_and_record st now).2 = { st with warned_short := true } ∨
        (check_and_record st now).2 = { st with hits := prune st.hits now } ∨
        (check_and_record st now).2 =
          { st with hits := prune st.hits now, warned_window := true }) ∧
    (∀ (e : Option Backend) (rl : ℕ → Option UserRL) (uid : ℕ)
        (txt : Option String) (now : ℤ) (u : ℕ), u ≠ uid →
        (on_message e rl uid txt now).2 u = rl u) := by
  constructor
  · intro st now h
    rcases check_cases st now with ⟨_, _, heq⟩ | ⟨_, _, heq⟩ | ⟨_, _, _, heq⟩ |
      ⟨_, _, _, heq⟩ | ⟨_, _, heq⟩
    · rw [heq]
      right; left; rfl
    · rw [heq]
      left; rfl
    · rw [heq]
      right; right; right; rfl
    · rw [heq]
      right; right; left; rfl
    · rw [heq] at h
      simp at h
  · intro e rl uid txt now u hu
    rcases txt with _ | s
    · rfl
    · rw [on_message_some_snd]
      simp [hu]

theorem c10_rejection_frame_witness :
    ((check_and_record initRL 0).2 = initRL ∨
      (check_and_record initRL 0).2 = { initRL with warned_short := true } ∨
      (check_and_record initRL 0).2 = { initRL with hits := prune initRL.hits 0 } ∨
      (check_and_record initRL 0).2 =
        { initRL with hits := prune initRL.hits 0, warned_window := true }) ∧
    (on_message Option.none (fun _ => Option.none) 1 Option.none 0).2 2 =
      Option.none :=
  ⟨c10_rejection_frame.1 initRL 0 (by decide),
   c10_rejection_frame.2 Option.none (fun _ => Option.none) 1 Option.none 0 2
     (by decide)⟩

end TelegramBot
